import Mathlib

/-! pydermonkey: the Context type of the Python/SpiderMonkey bridge (src/context.c)

A shallow embedding of the five methods of `pymonkey.Context` and of its
deallocator.  The C code is stateful; here every function takes the state of
the world it touches (`World`) and returns its result together with the new
world.

Two things the file calls are not part of it and are treated as follows.

* The JavaScript engine (jsapi) and CPython are external.  Their answers are
  supplied by an environment record `Env`: for every engine entry point the
  record says, given the state of the JSContext and the arguments, whether the
  call succeeds, what it returns, and which exception is pending on the
  context afterwards; for JS_AddNamedRootRT it says whether the root was
  registered; for every format unit of PyArg_ParseTuple other than "O!" it
  says what the unit makes of an object.  Nothing is assumed about these
  answers; what is assumed is that an engine call changes nothing else of the
  tracked state (request depth, root tables, reference counts, name buffers).
* `PYM_jsvalToPyObject` (utils.c) and the deallocator of `pymonkey.Object`
  (object.c) belong to the repository but are not in the source tree at hand.
  The first is a field of `Env`, the second is modelled from the specification.

Every call into the engine or into the host allocator of name buffers is
recorded in `World.log`, in program order, together with the request depth of
the context at the moment of the call.
-/

namespace Pydermonkey

/-! ## Host values and errors -/

/-- Exception classes that can be set when a method of this file returns NULL. -/
inductive PyExc
  | PyExc_TypeError
  | PyExc_OverflowError
  | PyExc_MemoryError
  | PyExc_UnicodeError
  | PyExc_NotImplementedError
  | PYM_error
  deriving DecidableEq, Repr

/-- The Python error indicator on a NULL return.  `PyErr_SetString` is an error set
by a statement of context.c, with its literal message; `hostRaised` is an error
set inside a callee (PyArg_ParseTuple, PyObject_New, PYM_jsvalToPyObject), whose
message is the callee's business. -/
inductive PyErr
  | PyErr_SetString (exc : PyExc) (msg : String)
  | hostRaised (exc : PyExc)
  deriving DecidableEq, Repr

/-- Exception class of an error. -/
def PyErr.exc : PyErr → PyExc
  | .PyErr_SetString e _ => e
  | .hostRaised e => e

/-- The struct PYM_JSObject (object.h): a Python object at address `addr` holding a
reference to its runtime and the JSObject pointer `obj` (`none` is NULL).  The
address of the `obj` field is what gets registered as a GC root, and is
identified with `addr`. -/
structure PYM_JSObject where
  addr : Nat
  runtime : Nat
  obj : Option Nat
  deriving DecidableEq, Repr

/-- Python values that cross the boundary: members of the argument tuple and
results.  `PyString` carries the bytes of a `str`; `PyOther` stands for any other
object (unicode, long, float, a buffer, an instance of a class), told apart by
its identity; what argument parsing makes of it is the host's answer. -/
inductive PyVal
  | Py_None
  | PyInt (n : Int)
  | PyString (bytes : List Nat)
  | PyOther (id : Nat)
  | PYM_JSObject (o : PYM_JSObject)
  | PYM_JSRuntimeObject (rt : Nat)
  deriving DecidableEq, Repr

/-- Type objects, as far as argument parsing distinguishes them. -/
inductive PyType
  | NoneType
  | PyInt_Type
  | PyString_Type
  | otherType
  | PYM_JSObjectType
  | PYM_JSRuntimeType
  deriving DecidableEq, Repr

/-- The type of a value (`ob_type`). -/
def PyVal.ob_type : PyVal → PyType
  | .Py_None => .NoneType
  | .PyInt _ => .PyInt_Type
  | .PyString _ => .PyString_Type
  | .PyOther _ => .otherType
  | .PYM_JSObject _ => .PYM_JSObjectType
  | .PYM_JSRuntimeObject _ => .PYM_JSRuntimeType

/-! ## PyArg_ParseTuple

The format strings of context.c are "O!es", "O!" and "O!s#si".  A tuple is
parsed by checking its length against the number of units and then converting
its members left to right, the first failure being reported.  "O!" with
&PYM_JSObjectType is a type test and is modelled as such.  What the units
"es", "s#", "s" and "i" take (str, unicode, buffers, int, long, objects with
__int__ ...) and what they produce is decided inside CPython: it is the answer
of the host, given by a record `FormatUnits`. -/

/-- The host's converters for the units "es" (with encoding "utf-8"), "s#", "s" and
"i": for every object either the converted C value or the exception class
the converter leaves set. -/
structure FormatUnits where
  es : PyVal → Except PyExc (List Nat)
  s_hash : PyVal → Except PyExc (List Nat × Nat)
  s : PyVal → Except PyExc (List Nat)
  i : PyVal → Except PyExc Int

/-- Unit "O!" with &PYM_JSObjectType: the argument must be a pymonkey.Object. -/
def convert_O_bang : PyVal → Except PyErr PYM_JSObject
  | .PYM_JSObject o => .ok o
  | _ => .error (.hostRaised .PyExc_TypeError)

/-- A unit converted by the host: its exception, if any, is the error of the parse. -/
def hostUnit {α : Type} : Except PyExc α → Except PyErr α
  | .ok v => .ok v
  | .error exc => .error (.hostRaised exc)

/-- PyArg_ParseTuple(args, "O!es", &PYM_JSObjectType, &object, "utf-8", &string). -/
def PyArg_ParseTuple_O_es (U : FormatUnits) (args : List PyVal) :
    Except PyErr (PYM_JSObject × List Nat) :=
  match args with
  | [a, b] =>
    match convert_O_bang a with
    | .error e => .error e
    | .ok object =>
      match hostUnit (U.es b) with
      | .error e => .error e
      | .ok string => .ok (object, string)
  | _ => .error (.hostRaised .PyExc_TypeError)

/-- PyArg_ParseTuple(args, "O!", &PYM_JSObjectType, &object). -/
def PyArg_ParseTuple_O (args : List PyVal) : Except PyErr PYM_JSObject :=
  match args with
  | [a] => convert_O_bang a
  | _ => .error (.hostRaised .PyExc_TypeError)

/-- PyArg_ParseTuple(args, "O!s#si", &PYM_JSObjectType, &object, &source,
&sourceLen, &filename, &lineNo). -/
def PyArg_ParseTuple_O_shash_s_i (U : FormatUnits) (args : List PyVal) :
    Except PyErr (PYM_JSObject × (List Nat × Nat) × List Nat × Int) :=
  match args with
  | [a, b, c, d] =>
    match convert_O_bang a with
    | .error e => .error e
    | .ok object =>
      match hostUnit (U.s_hash b) with
      | .error e => .error e
      | .ok source =>
        match hostUnit (U.s c) with
        | .error e => .error e
        | .ok filename =>
          match hostUnit (U.i d) with
          | .error e => .error e
          | .ok lineNo => .ok (object, source, filename, lineNo)
  | _ => .error (.hostRaised .PyExc_TypeError)

/-! ## The world -/

/-- Calls that leave context.c, as recorded in the log. -/
inductive Event
  | JS_DestroyContext
  | JS_NewObject
  | JS_AddNamedRootRT (rt : Nat) (slot : Nat)
  | JS_RemoveRootRT (rt : Nat) (slot : Nat)
  | JS_CStringsAreUTF8
  | JS_NewStringCopyZ (s : List Nat)
  | JS_GetUCProperty (obj : Option Nat) (chars : List Nat) (length : Nat)
  | JS_InitStandardClasses (obj : Option Nat)
  | JS_BeginRequest
  | JS_EndRequest
  | JS_EvaluateScript (obj : Option Nat) (source : List Nat) (sourceLen : Nat)
      (filename : List Nat) (lineNo : Int)
  | PyMem_NEW
  | PyMem_Free
  deriving DecidableEq, Repr

/-- One log entry: the call and the request depth of the context when it was made. -/
structure Logged where
  event : Event
  requestDepth : Nat
  deriving DecidableEq, Repr

/-- What this development tracks of the engine's JSContext: the depth of nested
requests and the pending exception (`none`: nothing pending). -/
structure JSContext where
  requestDepth : Nat
  exception : Option Nat
  deriving DecidableEq, Repr

/-- The struct PYM_JSContextObject (context.h): the JSContext pointer (`none` is
NULL) and the runtime object the context holds a reference to. -/
structure PYM_JSContextObject where
  cx : Option Nat
  runtime : Nat
  deriving DecidableEq, Repr

/-- State touched by the methods: the JSContext behind `self->cx`, the Python
reference count of every runtime object, the GC root table of every runtime
(slot address and root name), the number of name buffers allocated by "es" and
not yet freed, and the log. -/
structure World where
  cx : JSContext
  ob_refcnt : Nat → Nat
  roots : Nat → List (Nat × String)
  buffers : Nat
  log : List Logged

/-- Answer of an engine call: its result (`none` is NULL or JS_FALSE) and the
exception pending on the context after it. -/
structure Outcome (α : Type) where
  result : Option α
  exception : Option Nat

/-- Everything context.c calls and does not define.  A jsval is a tagged machine
word and a JSString is its sequence of jschars. -/
structure Env where
  JS_CStringsAreUTF8 : Bool
  JS_NewObject : JSContext → Outcome Nat
  JS_NewStringCopyZ : JSContext → List Nat → Outcome (List Nat)
  JS_GetUCProperty : JSContext → Option Nat → List Nat → Nat → Outcome Nat
  JS_InitStandardClasses : JSContext → Option Nat → Outcome Unit
  JS_EvaluateScript :
    JSContext → Option Nat → List Nat → Nat → List Nat → Int → Outcome Nat
  JS_AddNamedRootRT : Nat → Nat → Bool
  PyObject_New : Option Nat
  units : FormatUnits
  PYM_jsvalToPyObject : Nat → Except PyErr PyVal

/-- Append a call to the log. -/
def World.record (w : World) (e : Event) : World :=
  { w with log := w.log ++ [⟨e, w.cx.requestDepth⟩] }

/-- An engine call on the context: it is logged and the context's pending
exception becomes the one the engine left.  Requests the engine opens inside
the call are closed when it returns, so the request depth is as before. -/
def World.engineCall (w : World) (e : Event) (exception : Option Nat) : World :=
  { w.record e with cx := { w.cx with exception := exception } }

/-- Py_INCREF on the runtime object `rt`. -/
def Py_INCREF (rt : Nat) (w : World) : World :=
  { w with ob_refcnt := fun r => if r = rt then w.ob_refcnt r + 1 else w.ob_refcnt r }

/-- Py_DECREF on the runtime object `rt`. -/
def Py_DECREF (rt : Nat) (w : World) : World :=
  { w with ob_refcnt := fun r => if r = rt then w.ob_refcnt r - 1 else w.ob_refcnt r }

/-- JS_AddNamedRootRT(rt, slot, name) with the engine's answer `ok`: on JS_TRUE the
slot enters the root table of `rt`, on JS_FALSE the table is as before. -/
def JS_AddNamedRootRT (ok : Bool) (rt : Nat) (slot : Nat) (name : String) (w : World) :
    World :=
  { w.record (.JS_AddNamedRootRT rt slot) with
    roots := fun r =>
      if r = rt then (if ok then (slot, name) :: w.roots r else w.roots r)
      else w.roots r }

/-- JS_RemoveRootRT(rt, slot): the slot leaves the root table of `rt`; removing a
slot that is not there changes nothing. -/
def JS_RemoveRootRT (rt : Nat) (slot : Nat) (w : World) : World :=
  { w.record (.JS_RemoveRootRT rt slot) with
    roots := fun r =>
      if r = rt then (w.roots r).filter (fun p => !decide (p.1 = slot)) else w.roots r }

/-- JS_BeginRequest(cx). -/
def JS_BeginRequest (w : World) : World :=
  { w.record .JS_BeginRequest with
    cx := { w.cx with requestDepth := w.cx.requestDepth + 1 } }

/-- JS_EndRequest(cx). -/
def JS_EndRequest (w : World) : World :=
  { w.record .JS_EndRequest with
    cx := { w.cx with requestDepth := w.cx.requestDepth - 1 } }

/-- The buffer that "es" allocates once the whole tuple has parsed. -/
def PyMem_NEW (w : World) : World :=
  { w.record .PyMem_NEW with buffers := w.buffers + 1 }

/-- PyMem_Free(string). -/
def PyMem_Free (w : World) : World :=
  { w.record .PyMem_Free with buffers := w.buffers - 1 }

/-- Modelled from the spec: the deallocator of pymonkey.Object (object.c is not in
the source tree).  "Destruction unconditionally removes the object's root entry
exactly once", and the Runtime is "shared by reference count among all
Contexts/Objects that reference it", so the object gives its reference back. -/
def PYM_JSObjectDealloc (o : PYM_JSObject) (w : World) : World :=
  Py_DECREF o.runtime (JS_RemoveRootRT o.runtime o.addr w)

/-! ## context.c -/

/-- PYM_JSContextDealloc (context.c:5-17).  The stores of NULL into `self` are not
kept: `self` is freed by the last statement. -/
def PYM_JSContextDealloc (self : PYM_JSContextObject) (w : World) : World :=
  let w1 := if self.cx.isSome then w.record .JS_DestroyContext else w
  Py_DECREF self.runtime w1

/-- PYM_getRuntime (context.c:19-24). -/
def PYM_getRuntime (self : PYM_JSContextObject) (_args : List PyVal) (w : World) :
    Except PyErr PyVal × World :=
  (.ok (.PYM_JSRuntimeObject self.runtime), Py_INCREF self.runtime w)

/-- PYM_newObject (context.c:26-48).  `Py_DECREF(object)` on the failure path drops
the only reference to the new object, which runs its deallocator.  The JSBool
that JS_AddNamedRootRT returns is not looked at: the handle is returned
whether or not the root was registered. -/
def PYM_newObject (E : Env) (self : PYM_JSContextObject) (_args : List PyVal) (w : World) :
    Except PyErr PyVal × World :=
  match E.PyObject_New with
  | none => (.error (.hostRaised .PyExc_MemoryError), w)
  | some addr =>
    let w1 := Py_INCREF self.runtime w
    let r := E.JS_NewObject w1.cx
    let w2 := w1.engineCall .JS_NewObject r.exception
    match r.result with
    | none =>
      (.error (.PyErr_SetString .PYM_error "JS_NewObject() failed"),
        PYM_JSObjectDealloc { addr := addr, runtime := self.runtime, obj := none } w2)
    | some obj =>
      let w3 := JS_AddNamedRootRT (E.JS_AddNamedRootRT self.runtime addr) self.runtime addr
        "Pymonkey-Generated Object" w2
      (.ok (.PYM_JSObject { addr := addr, runtime := self.runtime, obj := some obj }), w3)

/-- PYM_getProperty (context.c:50-89).  JS_GetStringChars and JS_GetStringLength
read the JSString just made and are folded into the JS_GetUCProperty entry. -/
def PYM_getProperty (E : Env) (_self : PYM_JSContextObject) (args : List PyVal) (w : World) :
    Except PyErr PyVal × World :=
  let w0 := w.record .JS_CStringsAreUTF8
  if !E.JS_CStringsAreUTF8 then
    (.error (.PyErr_SetString .PyExc_NotImplementedError
      "Data type conversion not implemented."), w0)
  else
    match PyArg_ParseTuple_O_es E.units args with
    | .error e => (.error e, w0)
    | .ok (object, string) =>
      let w1 := PyMem_NEW w0
      let r := E.JS_NewStringCopyZ w1.cx string
      let w2 := w1.engineCall (.JS_NewStringCopyZ string) r.exception
      match r.result with
      | none =>
        (.error (.PyErr_SetString .PYM_error "JS_NewStringCopyZ() failed"), PyMem_Free w2)
      | some jsString =>
        let r2 := E.JS_GetUCProperty w2.cx object.obj jsString jsString.length
        let w3 := w2.engineCall (.JS_GetUCProperty object.obj jsString jsString.length)
          r2.exception
        match r2.result with
        | none =>
          (.error (.PyErr_SetString .PYM_error "Getting property failed."), PyMem_Free w3)
        | some val => (E.PYM_jsvalToPyObject val, PyMem_Free w3)

/-- PYM_initStandardClasses (context.c:91-105). -/
def PYM_initStandardClasses (E : Env) (_self : PYM_JSContextObject) (args : List PyVal)
    (w : World) : Except PyErr PyVal × World :=
  match PyArg_ParseTuple_O args with
  | .error e => (.error e, w)
  | .ok object =>
    let r := E.JS_InitStandardClasses w.cx object.obj
    let w1 := w.engineCall (.JS_InitStandardClasses object.obj) r.exception
    match r.result with
    | none => (.error (.PyErr_SetString .PYM_error "JS_InitStandardClasses() failed"), w1)
    | some _ => (.ok .Py_None, w1)

/-- PYM_evaluateScript (context.c:107-136). -/
def PYM_evaluateScript (E : Env) (_self : PYM_JSContextObject) (args : List PyVal)
    (w : World) : Except PyErr PyVal × World :=
  match PyArg_ParseTuple_O_shash_s_i E.units args with
  | .error e => (.error e, w)
  | .ok (object, (source, sourceLen), filename, lineNo) =>
    let w1 := JS_BeginRequest w
    let r := E.JS_EvaluateScript w1.cx object.obj source sourceLen filename lineNo
    let w2 := w1.engineCall (.JS_EvaluateScript object.obj source sourceLen filename lineNo)
      r.exception
    match r.result with
    | none => (.error (.PyErr_SetString .PYM_error "Script failed"), JS_EndRequest w2)
    | some rval =>
      let pyRval := E.PYM_jsvalToPyObject rval
      (pyRval, JS_EndRequest w2)

/-! ## Request brackets -/

/-- Whether a sequence of calls opens and closes requests like brackets: reading
left to right with `open_` requests open, no JS_EndRequest comes while none is
open, and none is left open at the end. -/
def requestsBalanced : List Event → Nat → Bool
  | [], open_ => open_ == 0
  | .JS_BeginRequest :: es, open_ => requestsBalanced es (open_ + 1)
  | .JS_EndRequest :: _, 0 => false
  | .JS_EndRequest :: es, open_ + 1 => requestsBalanced es open_
  | _ :: es, open_ => requestsBalanced es open_

/-- Number of JS_DestroyContext calls in a log. -/
def destroyCount (log : List Logged) : Nat :=
  log.countP (fun l => decide (l.event = .JS_DestroyContext))

/-- Number of calls in a log that satisfy `p`. -/
def countCalls (p : Event → Bool) (log : List Logged) : Nat :=
  log.countP (fun l => p l.event)

/-- Whether a call registers a GC root. -/
def Event.isAddRoot : Event → Bool
  | .JS_AddNamedRootRT _ _ => true
  | _ => false

/-- Whether a call is PyMem_Free. -/
def Event.isFree : Event → Bool
  | .PyMem_Free => true
  | _ => false

/-- Whether a call is the buffer allocation of "es". -/
def Event.isAlloc : Event → Bool
  | .PyMem_NEW => true
  | _ => false

/-- Whether a call makes an engine string or looks a property up. -/
def Event.isStringOrLookup : Event → Bool
  | .JS_NewStringCopyZ _ => true
  | .JS_GetUCProperty _ _ _ => true
  | _ => false

/-! ## Error messages -/

/-- The engine entry points whose failure context.c turns into a Python error. -/
inductive EngineCall
  | JS_NewObject
  | JS_NewStringCopyZ
  | JS_GetUCProperty
  | JS_InitStandardClasses
  | JS_EvaluateScript
  deriving DecidableEq, Repr

/-- Name of an engine entry point, as written in the source. -/
def EngineCall.name : EngineCall → String
  | .JS_NewObject => "JS_NewObject"
  | .JS_NewStringCopyZ => "JS_NewStringCopyZ"
  | .JS_GetUCProperty => "JS_GetUCProperty"
  | .JS_InitStandardClasses => "JS_InitStandardClasses"
  | .JS_EvaluateScript => "JS_EvaluateScript"

/-- The string literal context.c passes to PyErr_SetString when the engine call
fails (lines 39, 72, 83, 100, 126). -/
def failureMessage : EngineCall → String
  | .JS_NewObject => "JS_NewObject() failed"
  | .JS_NewStringCopyZ => "JS_NewStringCopyZ() failed"
  | .JS_GetUCProperty => "Getting property failed."
  | .JS_InitStandardClasses => "JS_InitStandardClasses() failed"
  | .JS_EvaluateScript => "Script failed"

/-- Whether the characters `pat` occur consecutively somewhere in `text`. -/
def occursIn (pat : List Char) : List Char → Bool
  | [] => pat.isEmpty
  | c :: cs => pat.isPrefixOf (c :: cs) || occursIn pat cs

/-- Whether a message contains the name of the engine call. -/
def mentions (msg : String) (c : EngineCall) : Bool :=
  occursIn c.name.toList msg.toList

/-! ## Lifetime of the runtime

The host's view of one Context and of what it made: the world, the Context
object (until it is deallocated), the live handles made by new_object, and the
number of references to the runtime the host itself holds. -/

/-- Host-side configuration around one Context bound to the runtime `runtime`. -/
structure Bridge where
  w : World
  runtime : Nat
  context : Option PYM_JSContextObject
  handles : List PYM_JSObject
  runtimeRefs : Nat

/-- What the host can do.  Method calls carry the environment that answers them. -/
inductive Cmd
  | new_object (E : Env) (args : List PyVal)
  | get_runtime (args : List PyVal)
  | init_standard_classes (E : Env) (args : List PyVal)
  | evaluate_script (E : Env) (args : List PyVal)
  | get_property (E : Env) (args : List PyVal)
  | release_handle (i : Nat)
  | release_runtime
  | destroy_context

/-- One host action.  Methods need a live Context; a handle returned by new_object
joins the live handles; releasing the handle at position `i` runs its
deallocator; the host can drop a runtime reference only if it holds one;
destroying the Context runs PYM_JSContextDealloc. -/
def step (s : Bridge) : Cmd → Bridge
  | .new_object E args =>
    match s.context with
    | none => s
    | some self =>
      match PYM_newObject E self args s.w with
      | (.ok (.PYM_JSObject o), w1) => { s with w := w1, handles := o :: s.handles }
      | (_, w1) => { s with w := w1 }
  | .get_runtime args =>
    match s.context with
    | none => s
    | some self =>
      { s with w := (PYM_getRuntime self args s.w).2, runtimeRefs := s.runtimeRefs + 1 }
  | .init_standard_classes E args =>
    match s.context with
    | none => s
    | some self => { s with w := (PYM_initStandardClasses E self args s.w).2 }
  | .evaluate_script E args =>
    match s.context with
    | none => s
    | some self => { s with w := (PYM_evaluateScript E self args s.w).2 }
  | .get_property E args =>
    match s.context with
    | none => s
    | some self => { s with w := (PYM_getProperty E self args s.w).2 }
  | .release_handle i =>
    match s.handles[i]? with
    | none => s
    | some o => { s with w := PYM_JSObjectDealloc o s.w, handles := s.handles.eraseIdx i }
  | .release_runtime =>
    if s.runtimeRefs = 0 then s
    else { s with w := Py_DECREF s.runtime s.w, runtimeRefs := s.runtimeRefs - 1 }
  | .destroy_context =>
    match s.context with
    | none => s
    | some self => { s with w := PYM_JSContextDealloc self s.w, context := none }

/-- Run a sequence of host actions. -/
def run (s : Bridge) (cmds : List Cmd) : Bridge :=
  cmds.foldl step s

/-- The state right after the Context was created on runtime `rt`: the Context
holds one reference to the runtime, the host holds `hostRefs` more, no handle
exists, nothing is rooted or logged. -/
def Bridge.init (rt cx hostRefs : Nat) : Bridge where
  w := { cx := { requestDepth := 0, exception := none }
         ob_refcnt := fun r => if r = rt then 1 + hostRefs else 0
         roots := fun _ => []
         buffers := 0
         log := [] }
  runtime := rt
  context := some { cx := some cx, runtime := rt }
  handles := []
  runtimeRefs := hostRefs

/-- What holds in every state the host can reach: the reference count of the
runtime is one for the Context while it lives, plus one for every live handle,
plus the references the host holds; the live handles and the Context belong to
this runtime; and the engine context has been destroyed at most once, and not
at all while the Context object lives. -/
def Bridge.inv (s : Bridge) : Prop :=
  s.w.ob_refcnt s.runtime =
      (if s.context.isSome then 1 else 0) + s.handles.length + s.runtimeRefs ∧
    (∀ o ∈ s.handles, o.runtime = s.runtime) ∧
    (∀ c, s.context = some c → c.runtime = s.runtime) ∧
    destroyCount s.w.log + (if s.context.isSome then 1 else 0) ≤ 1

/-! ## Concrete inputs -/

/-- A Context on runtime 0. -/
def exampleSelf : PYM_JSContextObject := { cx := some 1, runtime := 0 }

/-- A global object, made earlier by new_object and rooted on runtime 0. -/
def exampleGlobal : PYM_JSObject := { addr := 100, runtime := 0, obj := some 7 }

/-- An idle world: no request open, no exception pending, the Context, the host and
the global object each holding a reference to runtime 0. -/
def exampleWorld : World where
  cx := { requestDepth := 0, exception := none }
  ob_refcnt := fun r => if r = 0 then 3 else 0
  roots := fun r => if r = 0 then [(100, "Pymonkey-Generated Object")] else []
  buffers := 0
  log := []

/-- A host whose units convert str and int only, the way CPython 2 converts them:
"es" recodes a str through the default ASCII codec (a byte above 127 is a
UnicodeError) and refuses a NUL byte; "s#" takes any str, with its length; "s"
refuses a NUL byte; "i" takes an int that fits a C int and raises
OverflowError otherwise.  Every other object is refused with a TypeError. -/
def exampleUnits : FormatUnits where
  es := fun a =>
    match a with
    | .PyString b =>
      if b.any (fun c => decide (127 < c)) then .error .PyExc_UnicodeError
      else if 0 ∈ b then .error .PyExc_TypeError else .ok b
    | _ => .error .PyExc_TypeError
  s_hash := fun a =>
    match a with
    | .PyString b => .ok (b, b.length)
    | _ => .error .PyExc_TypeError
  s := fun a =>
    match a with
    | .PyString b => if 0 ∈ b then .error .PyExc_TypeError else .ok b
    | _ => .error .PyExc_TypeError
  i := fun a =>
    match a with
    | .PyInt n =>
      if -2147483648 ≤ n ∧ n ≤ 2147483647 then .ok n else .error .PyExc_OverflowError
    | _ => .error .PyExc_TypeError

/-- An engine with UTF-8 C strings.  The script "{{{" fails to compile and leaves
the exception 42 pending, the script "throw 1" fails and leaves 43; reading
the property "boom" runs a getter that throws 99; everything else succeeds and
leaves the pending exception as it was.  The marshaller returns an int. -/
def exampleEnv : Env where
  JS_CStringsAreUTF8 := true
  JS_NewObject := fun cx => ⟨some 8, cx.exception⟩
  JS_NewStringCopyZ := fun cx s => ⟨some s, cx.exception⟩
  JS_GetUCProperty := fun cx _ chars _ =>
    if chars = [98, 111, 111, 109] then ⟨none, some 99⟩ else ⟨some 5, cx.exception⟩
  JS_InitStandardClasses := fun cx _ => ⟨some (), cx.exception⟩
  JS_EvaluateScript := fun cx _ source _ _ _ =>
    if source = [123, 123, 123] then ⟨none, some 42⟩
    else if source = [116, 104, 114, 111, 119, 32, 49] then ⟨none, some 43⟩
    else ⟨some 5, cx.exception⟩
  JS_AddNamedRootRT := fun _ _ => true
  PyObject_New := some 200
  units := exampleUnits
  PYM_jsvalToPyObject := fun v => .ok (.PyInt v)

/-- The same engine built without UTF-8 C strings. -/
def exampleEnvNoUTF8 : Env := { exampleEnv with JS_CStringsAreUTF8 := false }

/-- An engine in which every call fails without leaving an exception. -/
def failingEnv : Env where
  JS_CStringsAreUTF8 := true
  JS_NewObject := fun _ => ⟨none, none⟩
  JS_NewStringCopyZ := fun _ _ => ⟨none, none⟩
  JS_GetUCProperty := fun _ _ _ _ => ⟨none, none⟩
  JS_InitStandardClasses := fun _ _ => ⟨none, none⟩
  JS_EvaluateScript := fun _ _ _ _ _ _ => ⟨none, none⟩
  JS_AddNamedRootRT := fun _ _ => false
  PyObject_New := some 200
  units := exampleUnits
  PYM_jsvalToPyObject := fun v => .ok (.PyInt v)

/-- An engine in which only the property lookup fails, without an exception. -/
def lookupFailingEnv : Env :=
  { exampleEnv with JS_GetUCProperty := fun _ _ _ _ => ⟨none, none⟩ }

/-- An engine whose root table cannot take another entry: JS_AddNamedRootRT answers
JS_FALSE; everything else is as in `exampleEnv`. -/
def rootFailingEnv : Env :=
  { exampleEnv with JS_AddNamedRootRT := fun _ _ => false }

/-- An engine with UTF-8 C strings and a marshaller that cannot convert the value it
is given and raises NotImplementedError. -/
def marshalFailingEnv : Env :=
  { exampleEnv with
    PYM_jsvalToPyObject := fun _ =>
      .error (.PyErr_SetString .PyExc_NotImplementedError
        "Data type conversion not implemented.") }

/-- Arguments of evaluate_script(global, "{{{", "f", 1). -/
def argsBadScript : List PyVal :=
  [.PYM_JSObject exampleGlobal, .PyString [123, 123, 123], .PyString [102], .PyInt 1]

/-- Arguments of evaluate_script(global, "throw 1", "f", 1). -/
def argsThrowScript : List PyVal :=
  [.PYM_JSObject exampleGlobal, .PyString [116, 104, 114, 111, 119, 32, 49],
    .PyString [102], .PyInt 1]

/-- Arguments of evaluate_script(global, "1+1", "f", 1). -/
def argsGoodScript : List PyVal :=
  [.PYM_JSObject exampleGlobal, .PyString [49, 43, 49], .PyString [102], .PyInt 1]

/-- Arguments of get_property(global, "boom"). -/
def argsBoom : List PyVal :=
  [.PYM_JSObject exampleGlobal, .PyString [98, 111, 111, 109]]

/-- Arguments of get_property(global, "Object"). -/
def argsObject : List PyVal :=
  [.PYM_JSObject exampleGlobal, .PyString [79, 98, 106, 101, 99, 116]]

/-! ## Theorems -/

/-- The world PYM_evaluateScript leaves once its arguments have parsed does not
depend on what the engine or the marshaller answered, up to the exception the
engine left pending. -/
theorem evaluateScript_world_of_parsed (E : Env) (self : PYM_JSContextObject)
    (args : List PyVal) (w : World) (object : PYM_JSObject) (source : List Nat)
    (sourceLen : Nat) (filename : List Nat) (lineNo : Int)
    (h : PyArg_ParseTuple_O_shash_s_i E.units args =
      .ok (object, (source, sourceLen), filename, lineNo)) :
    (PYM_evaluateScript E self args w).2 =
      JS_EndRequest ((JS_BeginRequest w).engineCall
        (.JS_EvaluateScript object.obj source sourceLen filename lineNo)
        (E.JS_EvaluateScript (JS_BeginRequest w).cx object.obj source sourceLen
          filename lineNo).exception) := by
  simp only [PYM_evaluateScript, h]
  split <;> rfl

/-- C1: on every exit path of PYM_evaluateScript (argument parsing fails, the engine
reports failure, the marshaller fails, evaluation succeeds) the request depth
of the context on return is its depth on entry, and the calls the method made
are either none at all or exactly JS_BeginRequest, JS_EvaluateScript,
JS_EndRequest in this order, so that no JS_EndRequest comes without a
JS_BeginRequest before it in the same call. -/
theorem evaluateScript_requests_paired (E : Env) (self : PYM_JSContextObject)
    (args : List PyVal) (w : World) :
    (PYM_evaluateScript E self args w).2.cx.requestDepth = w.cx.requestDepth ∧
    ∃ added : List Logged,
      (PYM_evaluateScript E self args w).2.log = w.log ++ added ∧
      requestsBalanced (added.map Logged.event) 0 = true ∧
      (((∃ e, PyArg_ParseTuple_O_shash_s_i E.units args = .error e) ∧ added = []) ∨
        ∃ object source sourceLen filename lineNo,
          PyArg_ParseTuple_O_shash_s_i E.units args =
            .ok (object, (source, sourceLen), filename, lineNo) ∧
          added =
            [⟨.JS_BeginRequest, w.cx.requestDepth⟩,
             ⟨.JS_EvaluateScript object.obj source sourceLen filename lineNo,
               w.cx.requestDepth + 1⟩,
             ⟨.JS_EndRequest, w.cx.requestDepth + 1⟩]) := by
  rcases h : PyArg_ParseTuple_O_shash_s_i E.units args with
    e | ⟨object, ⟨source, sourceLen⟩, filename, lineNo⟩
  · refine ⟨by simp [PYM_evaluateScript, h], [], by simp [PYM_evaluateScript, h],
      by simp [requestsBalanced], Or.inl ⟨⟨e, rfl⟩, rfl⟩⟩
  · rw [evaluateScript_world_of_parsed E self args w _ _ _ _ _ h]
    refine ⟨by simp [JS_EndRequest, World.engineCall, World.record, JS_BeginRequest],
      _, ?_, ?_, Or.inr ⟨object, source, sourceLen, filename, lineNo, rfl, rfl⟩⟩
    · simp [JS_EndRequest, World.engineCall, World.record, JS_BeginRequest]
    · simp [requestsBalanced]

/-- After PYM_evaluateScript has parsed its arguments, the exception pending on the
context on return is whatever JS_EvaluateScript left there: the method neither
reads nor clears it. -/
theorem evaluateScript_exception_of_parsed (E : Env) (self : PYM_JSContextObject)
    (args : List PyVal) (w : World) (object : PYM_JSObject) (source : List Nat)
    (sourceLen : Nat) (filename : List Nat) (lineNo : Int)
    (h : PyArg_ParseTuple_O_shash_s_i E.units args =
      .ok (object, (source, sourceLen), filename, lineNo)) :
    (PYM_evaluateScript E self args w).2.cx.exception =
      (E.JS_EvaluateScript (JS_BeginRequest w).cx object.obj source sourceLen
        filename lineNo).exception := by
  rw [evaluateScript_world_of_parsed E self args w _ _ _ _ _ h]
  rfl

/-- When JS_EvaluateScript fails, the error PYM_evaluateScript reports is the same
fixed one whatever exception the engine left. -/
theorem evaluateScript_error_of_failure (E : Env) (self : PYM_JSContextObject)
    (args : List PyVal) (w : World) (object : PYM_JSObject) (source : List Nat)
    (sourceLen : Nat) (filename : List Nat) (lineNo : Int)
    (h : PyArg_ParseTuple_O_shash_s_i E.units args =
      .ok (object, (source, sourceLen), filename, lineNo))
    (hfail : (E.JS_EvaluateScript (JS_BeginRequest w).cx object.obj source sourceLen
        filename lineNo).result = none) :
    (PYM_evaluateScript E self args w).1 =
      .error (.PyErr_SetString .PYM_error "Script failed") := by
  simp only [PYM_evaluateScript, h, hfail]

/-- C2: the code at the failing inputs.  evaluate_script(global, "{{{", "f", 1) on an
idle context, with an engine that fails and leaves exception 42 pending,
returns the error "Script failed" and the context still has exception 42
pending; get_property(global, "boom"), whose lookup fails leaving exception
99, returns "Getting property failed." with 99 still pending; and the valid
evaluate_script(global, "1+1", "f", 1) issued next on the same context enters
the engine with exception 42 pending and succeeds with it still pending. -/
theorem pending_exception_survives_return :
    (PYM_evaluateScript exampleEnv exampleSelf argsBadScript exampleWorld).1 =
      .error (.PyErr_SetString .PYM_error "Script failed") ∧
    (PYM_evaluateScript exampleEnv exampleSelf argsBadScript exampleWorld).2.cx.exception =
      some 42 ∧
    (PYM_getProperty exampleEnv exampleSelf argsBoom exampleWorld).1 =
      .error (.PyErr_SetString .PYM_error "Getting property failed.") ∧
    (PYM_getProperty exampleEnv exampleSelf argsBoom exampleWorld).2.cx.exception =
      some 99 ∧
    (PYM_evaluateScript exampleEnv exampleSelf argsGoodScript
      (PYM_evaluateScript exampleEnv exampleSelf argsBadScript exampleWorld).2).1 =
      .ok (.PyInt 5) ∧
    (PYM_evaluateScript exampleEnv exampleSelf argsGoodScript
      (PYM_evaluateScript exampleEnv exampleSelf argsBadScript exampleWorld).2).2.cx.exception =
      some 42 := by
  refine ⟨?_, ?_, ?_, ?_, ?_, ?_⟩ <;> rfl

/-- C3: the code at the failing inputs.  The scripts "{{{" and "throw 1" fail leaving
different exceptions pending (42 and 43), and PYM_evaluateScript reports the
same error for both, PYM_error with the fixed text "Script failed"; the only
calls it makes are JS_BeginRequest, JS_EvaluateScript and JS_EndRequest, none
of which asks the context for its pending exception. -/
theorem evaluateScript_reports_fixed_string :
    (PYM_evaluateScript exampleEnv exampleSelf argsBadScript exampleWorld).2.cx.exception =
      some 42 ∧
    (PYM_evaluateScript exampleEnv exampleSelf argsThrowScript exampleWorld).2.cx.exception =
      some 43 ∧
    (PYM_evaluateScript exampleEnv exampleSelf argsBadScript exampleWorld).1 =
      .error (.PyErr_SetString .PYM_error "Script failed") ∧
    (PYM_evaluateScript exampleEnv exampleSelf argsThrowScript exampleWorld).1 =
      .error (.PyErr_SetString .PYM_error "Script failed") ∧
    (PYM_evaluateScript exampleEnv exampleSelf argsBadScript exampleWorld).2.log =
      [⟨.JS_BeginRequest, 0⟩,
       ⟨.JS_EvaluateScript (some 7) [123, 123, 123] 3 [102] 1, 1⟩,
       ⟨.JS_EndRequest, 1⟩] := by
  refine ⟨?_, ?_, ?_, ?_, ?_⟩ <;> rfl

/-- No path through PYM_getProperty opens a request: the calls it adds to the log
contain no JS_BeginRequest, and each of them is made at the request depth the
context had on entry. -/
theorem getProperty_opens_no_request (E : Env) (self : PYM_JSContextObject)
    (args : List PyVal) (w : World) :
    ∃ added : List Logged,
      (PYM_getProperty E self args w).2.log = w.log ++ added ∧
      (∀ l ∈ added, l.event ≠ .JS_BeginRequest ∧ l.requestDepth = w.cx.requestDepth) := by
  unfold PYM_getProperty
  cases E.JS_CStringsAreUTF8
  · exact ⟨_, rfl, by simp⟩
  · rcases PyArg_ParseTuple_O_es E.units args with e | ⟨object, string⟩
    · exact ⟨_, rfl, by simp⟩
    · simp only [Bool.not_true, Bool.false_eq_true, if_false]
      split
      · refine ⟨[⟨.JS_CStringsAreUTF8, w.cx.requestDepth⟩, ⟨.PyMem_NEW, w.cx.requestDepth⟩,
          ⟨.JS_NewStringCopyZ string, w.cx.requestDepth⟩,
          ⟨.PyMem_Free, w.cx.requestDepth⟩], ?_, by simp⟩
        simp [PyMem_Free, PyMem_NEW, World.engineCall, World.record]
      · next jsString _ =>
        refine ⟨[⟨.JS_CStringsAreUTF8, w.cx.requestDepth⟩, ⟨.PyMem_NEW, w.cx.requestDepth⟩,
          ⟨.JS_NewStringCopyZ string, w.cx.requestDepth⟩,
          ⟨.JS_GetUCProperty object.obj jsString jsString.length, w.cx.requestDepth⟩,
          ⟨.PyMem_Free, w.cx.requestDepth⟩], ?_, by simp⟩
        split <;> simp [PyMem_Free, PyMem_NEW, World.engineCall, World.record]

/-- C8: the code at the failing input.  get_property(global, "Object") on an idle
context (request depth 0) reaches JS_GetUCProperty; the calls made are the
capability query, the buffer allocation, JS_NewStringCopyZ, JS_GetUCProperty
and PyMem_Free; there is no JS_BeginRequest among them and the lookup is made
at request depth 0, outside any request.  The depth on return is the depth on
entry. -/
theorem getProperty_lookup_outside_request :
    (PYM_getProperty exampleEnv exampleSelf argsObject exampleWorld).1 = .ok (.PyInt 5) ∧
    (PYM_getProperty exampleEnv exampleSelf argsObject exampleWorld).2.log =
      [⟨.JS_CStringsAreUTF8, 0⟩, ⟨.PyMem_NEW, 0⟩,
       ⟨.JS_NewStringCopyZ [79, 98, 106, 101, 99, 116], 0⟩,
       ⟨.JS_GetUCProperty (some 7) [79, 98, 106, 101, 99, 116] 6, 0⟩,
       ⟨.PyMem_Free, 0⟩] ∧
    countCalls (fun e => decide (e = .JS_BeginRequest))
      (PYM_getProperty exampleEnv exampleSelf argsObject exampleWorld).2.log = 0 ∧
    (PYM_getProperty exampleEnv exampleSelf argsObject exampleWorld).2.cx.requestDepth =
      exampleWorld.cx.requestDepth := by
  refine ⟨?_, ?_, ?_, ?_⟩ <;> rfl

/-- What PYM_newObject does once the host has allocated the handle at `addr`.  If
JS_NewObject succeeds, the handle is returned whatever JS_AddNamedRootRT
answered; the root table of the Context's runtime is the old one with the
handle's slot in front when the answer was JS_TRUE and the old one when it
was JS_FALSE; the tables of the other runtimes are untouched; exactly one
JS_AddNamedRootRT call was made.  If JS_NewObject fails, the result is the
error PYM_error "JS_NewObject() failed", no JS_AddNamedRootRT call was made and
every root table is a sublist of what it was. -/
theorem newObject_effect (E : Env) (self : PYM_JSContextObject)
    (args : List PyVal) (w : World) (addr : Nat) (haddr : E.PyObject_New = some addr) :
    (∀ obj, (E.JS_NewObject w.cx).result = some obj →
      (PYM_newObject E self args w).1 =
        .ok (.PYM_JSObject { addr := addr, runtime := self.runtime, obj := some obj }) ∧
      (PYM_newObject E self args w).2.roots self.runtime =
        (if E.JS_AddNamedRootRT self.runtime addr then
          (addr, "Pymonkey-Generated Object") :: w.roots self.runtime
        else w.roots self.runtime) ∧
      (∀ rt, rt ≠ self.runtime → (PYM_newObject E self args w).2.roots rt = w.roots rt) ∧
      (PYM_newObject E self args w).2.log =
        w.log ++ [⟨.JS_NewObject, w.cx.requestDepth⟩,
          ⟨.JS_AddNamedRootRT self.runtime addr, w.cx.requestDepth⟩] ∧
      countCalls Event.isAddRoot (PYM_newObject E self args w).2.log =
        countCalls Event.isAddRoot w.log + 1) ∧
    ((E.JS_NewObject w.cx).result = none →
      (PYM_newObject E self args w).1 =
        .error (.PyErr_SetString .PYM_error "JS_NewObject() failed") ∧
      (∀ rt, List.Sublist ((PYM_newObject E self args w).2.roots rt) (w.roots rt)) ∧
      countCalls Event.isAddRoot (PYM_newObject E self args w).2.log =
        countCalls Event.isAddRoot w.log) := by
  have hcx : (Py_INCREF self.runtime w).cx = w.cx := rfl
  constructor
  · intro obj hobj
    simp only [PYM_newObject, haddr, hcx, hobj]
    refine ⟨trivial, ?_, ?_, ?_, ?_⟩
    · simp [JS_AddNamedRootRT, World.engineCall, World.record, Py_INCREF]
    · intro rt hrt
      simp [JS_AddNamedRootRT, World.engineCall, World.record, Py_INCREF, hrt]
    · simp [JS_AddNamedRootRT, World.engineCall, World.record, Py_INCREF]
    · simp [JS_AddNamedRootRT, World.engineCall, World.record, Py_INCREF, countCalls,
        List.countP_append, Event.isAddRoot]
  · intro hnone
    simp only [PYM_newObject, haddr, hcx, hnone]
    refine ⟨trivial, ?_, ?_⟩
    · intro rt
      simp only [PYM_JSObjectDealloc, Py_DECREF, JS_RemoveRootRT, World.engineCall,
        World.record, Py_INCREF]
      split
      · exact List.filter_sublist _
      · exact List.Sublist.refl _
    · simp [PYM_JSObjectDealloc, Py_DECREF, JS_RemoveRootRT, World.engineCall,
        World.record, Py_INCREF, countCalls, List.countP_append, Event.isAddRoot]

/-- C4: the code at the failing input.  new_object() on a Context of runtime 0, the
host allocating the handle at address 200, JS_NewObject succeeding with
object 8 and JS_AddNamedRootRT answering JS_FALSE.  The calls made are
JS_NewObject and JS_AddNamedRootRT; the handle for object 8 is returned to the
host although its slot 200 is not in the root table of runtime 0, which still
holds the one root it had. -/
theorem newObject_returns_unrooted_handle :
    (rootFailingEnv.JS_NewObject exampleWorld.cx).result = some 8 ∧
    rootFailingEnv.JS_AddNamedRootRT 0 200 = false ∧
    (PYM_newObject rootFailingEnv exampleSelf [] exampleWorld).1 =
      .ok (.PYM_JSObject { addr := 200, runtime := 0, obj := some 8 }) ∧
    (PYM_newObject rootFailingEnv exampleSelf [] exampleWorld).2.log =
      [⟨.JS_NewObject, 0⟩, ⟨.JS_AddNamedRootRT 0 200, 0⟩] ∧
    (PYM_newObject rootFailingEnv exampleSelf [] exampleWorld).2.roots 0 =
      [(100, "Pymonkey-Generated Object")] ∧
    (PYM_newObject rootFailingEnv exampleSelf [] exampleWorld).2.roots 0 =
      exampleWorld.roots 0 := by
  refine ⟨?_, ?_, ?_, ?_, ?_, ?_⟩ <;> rfl

/-- The world PYM_getProperty leaves once the engine has UTF-8 C strings and the
arguments have parsed. -/
theorem getProperty_world_of_parsed (E : Env) (self : PYM_JSContextObject)
    (args : List PyVal) (w : World) (object : PYM_JSObject) (string : List Nat)
    (hu : E.JS_CStringsAreUTF8 = true)
    (hp : PyArg_ParseTuple_O_es E.units args = .ok (object, string)) :
    (PYM_getProperty E self args w).2 =
      match (E.JS_NewStringCopyZ w.cx string).result with
      | none =>
        PyMem_Free ((PyMem_NEW (w.record .JS_CStringsAreUTF8)).engineCall
          (.JS_NewStringCopyZ string) (E.JS_NewStringCopyZ w.cx string).exception)
      | some jsString =>
        PyMem_Free (((PyMem_NEW (w.record .JS_CStringsAreUTF8)).engineCall
          (.JS_NewStringCopyZ string) (E.JS_NewStringCopyZ w.cx string).exception).engineCall
          (.JS_GetUCProperty object.obj jsString jsString.length)
          (E.JS_GetUCProperty
            { w.cx with exception := (E.JS_NewStringCopyZ w.cx string).exception }
            object.obj jsString jsString.length).exception) := by
  have hcx : (PyMem_NEW (w.record .JS_CStringsAreUTF8)).cx = w.cx := rfl
  simp only [PYM_getProperty, hu, hp, hcx]
  cases h1 : (E.JS_NewStringCopyZ w.cx string).result with
  | none => rfl
  | some jsString =>
    simp only [Bool.not_true, Bool.false_eq_true, if_false]
    split <;> rfl

/-- The result and the world of PYM_getProperty when the engine lacks UTF-8 C
strings. -/
theorem getProperty_of_no_utf8 (E : Env) (self : PYM_JSContextObject)
    (args : List PyVal) (w : World) (hu : E.JS_CStringsAreUTF8 = false) :
    PYM_getProperty E self args w =
      (.error (.PyErr_SetString .PyExc_NotImplementedError
        "Data type conversion not implemented."), w.record .JS_CStringsAreUTF8) := by
  simp [PYM_getProperty, hu]

/-- The result and the world of PYM_getProperty when the arguments do not parse. -/
theorem getProperty_of_parse_error (E : Env) (self : PYM_JSContextObject)
    (args : List PyVal) (w : World) (e : PyErr) (hu : E.JS_CStringsAreUTF8 = true)
    (hp : PyArg_ParseTuple_O_es E.units args = .error e) :
    PYM_getProperty E self args w = (.error e, w.record .JS_CStringsAreUTF8) := by
  simp [PYM_getProperty, hu, hp]

/-- C5, as stated, fails: get_property(global, "Object") on an engine that has UTF-8
C strings, with a marshaller that raises NotImplementedError for the value
looked up.  The lookup succeeds and the operation fails with the marshaller's
NotImplementedError, the same error as on an engine without UTF-8. -/
theorem getProperty_not_implemented_with_utf8 :
    marshalFailingEnv.JS_CStringsAreUTF8 = true ∧
    (PYM_getProperty marshalFailingEnv exampleSelf argsObject exampleWorld).1 =
      .error (.PyErr_SetString .PyExc_NotImplementedError
        "Data type conversion not implemented.") ∧
    (PYM_getProperty marshalFailingEnv exampleSelf argsObject exampleWorld).1 =
      (PYM_getProperty exampleEnvNoUTF8 exampleSelf argsObject exampleWorld).1 := by
  refine ⟨?_, ?_, ?_⟩ <;> rfl

/-- C5, amended: get_property and the UTF-8 capability of the engine.  Without it the
method fails with NotImplementedError, the only call it makes is the
capability query (no JS_NewStringCopyZ, no JS_GetUCProperty), and the context,
the root tables, the reference counts and the buffers are as before.  With it,
every error of the method is the error of argument parsing, or one of the
method's own two PYM_errors, or the error the marshaller returned for the
value looked up: the method itself sets no NotImplementedError, and returns
one only when a callee raised it. -/
theorem getProperty_unicode_support (E : Env) (self : PYM_JSContextObject)
    (args : List PyVal) (w : World) :
    (E.JS_CStringsAreUTF8 = false →
      (PYM_getProperty E self args w).1 =
        .error (.PyErr_SetString .PyExc_NotImplementedError
          "Data type conversion not implemented.") ∧
      (PYM_getProperty E self args w).2.log =
        w.log ++ [⟨.JS_CStringsAreUTF8, w.cx.requestDepth⟩] ∧
      countCalls Event.isStringOrLookup (PYM_getProperty E self args w).2.log =
        countCalls Event.isStringOrLookup w.log ∧
      (PYM_getProperty E self args w).2.cx = w.cx ∧
      (PYM_getProperty E self args w).2.roots = w.roots ∧
      (PYM_getProperty E self args w).2.ob_refcnt = w.ob_refcnt ∧
      (PYM_getProperty E self args w).2.buffers = w.buffers) ∧
    (E.JS_CStringsAreUTF8 = true →
      ∀ e, (PYM_getProperty E self args w).1 = .error e →
        PyArg_ParseTuple_O_es E.units args = .error e ∨
        e = .PyErr_SetString .PYM_error "JS_NewStringCopyZ() failed" ∨
        e = .PyErr_SetString .PYM_error "Getting property failed." ∨
        ∃ object string jsString val,
          PyArg_ParseTuple_O_es E.units args = .ok (object, string) ∧
          (E.JS_NewStringCopyZ w.cx string).result = some jsString ∧
          (E.JS_GetUCProperty
            { w.cx with exception := (E.JS_NewStringCopyZ w.cx string).exception }
            object.obj jsString jsString.length).result = some val ∧
          E.PYM_jsvalToPyObject val = .error e) := by
  constructor
  · intro hu
    rw [getProperty_of_no_utf8 E self args w hu]
    refine ⟨rfl, rfl, ?_, rfl, rfl, rfl, rfl⟩
    simp [World.record, countCalls, List.countP_append, Event.isStringOrLookup]
  · intro hu e he
    rcases hp : PyArg_ParseTuple_O_es E.units args with e1 | ⟨object, string⟩
    · rw [getProperty_of_parse_error E self args w e1 hu hp] at he
      cases he
      exact Or.inl rfl
    · have hcx : (PyMem_NEW (w.record .JS_CStringsAreUTF8)).cx = w.cx := rfl
      simp only [PYM_getProperty, hu, hp, hcx, Bool.not_true, Bool.false_eq_true,
        if_false] at he
      cases h1 : (E.JS_NewStringCopyZ w.cx string).result with
      | none =>
        simp only [h1] at he
        cases he
        exact Or.inr (Or.inl rfl)
      | some jsString =>
        simp only [h1] at he
        have hcx3 : ((PyMem_NEW (w.record .JS_CStringsAreUTF8)).engineCall
            (.JS_NewStringCopyZ string) (E.JS_NewStringCopyZ w.cx string).exception).cx =
            { w.cx with exception := (E.JS_NewStringCopyZ w.cx string).exception } := rfl
        rw [hcx3] at he
        cases h2 : (E.JS_GetUCProperty
            { w.cx with exception := (E.JS_NewStringCopyZ w.cx string).exception }
            object.obj jsString jsString.length).result with
        | none =>
          simp only [h2] at he
          cases he
          exact Or.inr (Or.inr (Or.inl rfl))
        | some val =>
          simp only [h2] at he
          exact Or.inr (Or.inr (Or.inr ⟨object, string, jsString, val, rfl, h1, h2, he⟩))

/-- C5, amended, at concrete inputs: get_property(global, "Object") on an engine
without UTF-8 C strings, and on an engine with them whose marshaller raises
NotImplementedError: there the error is the one the marshaller returned for
the value 5 that the lookup produced. -/
theorem getProperty_unicode_support_witness :
    (PYM_getProperty exampleEnvNoUTF8 exampleSelf argsObject exampleWorld).1 =
      .error (.PyErr_SetString .PyExc_NotImplementedError
        "Data type conversion not implemented.") ∧
    (PYM_getProperty exampleEnvNoUTF8 exampleSelf argsObject exampleWorld).2.log =
      [⟨.JS_CStringsAreUTF8, 0⟩] ∧
    (PyArg_ParseTuple_O_es marshalFailingEnv.units argsObject =
        .error (.PyErr_SetString .PyExc_NotImplementedError
          "Data type conversion not implemented.") ∨
      PyErr.PyErr_SetString .PyExc_NotImplementedError
          "Data type conversion not implemented." =
        .PyErr_SetString .PYM_error "JS_NewStringCopyZ() failed" ∨
      PyErr.PyErr_SetString .PyExc_NotImplementedError
          "Data type conversion not implemented." =
        .PyErr_SetString .PYM_error "Getting property failed." ∨
      ∃ object string jsString val,
        PyArg_ParseTuple_O_es marshalFailingEnv.units argsObject = .ok (object, string) ∧
        (marshalFailingEnv.JS_NewStringCopyZ exampleWorld.cx string).result =
          some jsString ∧
        (marshalFailingEnv.JS_GetUCProperty
          { exampleWorld.cx with
            exception :=
              (marshalFailingEnv.JS_NewStringCopyZ exampleWorld.cx string).exception }
          object.obj jsString jsString.length).result = some val ∧
        marshalFailingEnv.PYM_jsvalToPyObject val =
          .error (.PyErr_SetString .PyExc_NotImplementedError
            "Data type conversion not implemented.")) :=
  ⟨((getProperty_unicode_support exampleEnvNoUTF8 exampleSelf argsObject exampleWorld).1
      rfl).1,
   ((getProperty_unicode_support exampleEnvNoUTF8 exampleSelf argsObject exampleWorld).1
      rfl).2.1,
   (getProperty_unicode_support marshalFailingEnv exampleSelf argsObject exampleWorld).2
      rfl _ rfl⟩

/-- C10: the name buffer of get_property.  The number of outstanding name buffers is
the same after the call as before it.  When the engine has UTF-8 C strings and
the arguments parse (so that "es" allocated the buffer), the call makes exactly
one allocation and exactly one PyMem_Free, whichever of the three later exits
it takes; when the engine lacks UTF-8 C strings or the arguments do not
parse, it makes no allocation and no PyMem_Free. -/
theorem getProperty_name_buffer (E : Env) (self : PYM_JSContextObject)
    (args : List PyVal) (w : World) :
    (PYM_getProperty E self args w).2.buffers = w.buffers ∧
    ((E.JS_CStringsAreUTF8 = true ∧ ∃ p, PyArg_ParseTuple_O_es E.units args = .ok p) →
      countCalls Event.isAlloc (PYM_getProperty E self args w).2.log =
        countCalls Event.isAlloc w.log + 1 ∧
      countCalls Event.isFree (PYM_getProperty E self args w).2.log =
        countCalls Event.isFree w.log + 1) ∧
    ((E.JS_CStringsAreUTF8 = false ∨ ∃ e, PyArg_ParseTuple_O_es E.units args = .error e) →
      countCalls Event.isAlloc (PYM_getProperty E self args w).2.log =
        countCalls Event.isAlloc w.log ∧
      countCalls Event.isFree (PYM_getProperty E self args w).2.log =
        countCalls Event.isFree w.log) := by
  cases hu : E.JS_CStringsAreUTF8
  · rw [getProperty_of_no_utf8 E self args w hu]
    refine ⟨rfl, fun h => absurd h.1 (by simp), fun _ => ?_⟩
    simp [World.record, countCalls, List.countP_append, Event.isAlloc, Event.isFree]
  · rcases hp : PyArg_ParseTuple_O_es E.units args with e | ⟨object, string⟩
    · rw [getProperty_of_parse_error E self args w e hu hp]
      refine ⟨rfl, fun h => ?_, fun _ => ?_⟩
      · obtain ⟨_, p, hp2⟩ := h
        cases hp2
      · simp [World.record, countCalls, List.countP_append, Event.isAlloc, Event.isFree]
    · rw [getProperty_world_of_parsed E self args w object string hu hp]
      refine ⟨?_, fun _ => ?_, fun h => ?_⟩
      · split <;> simp [PyMem_Free, PyMem_NEW, World.engineCall, World.record]
      · split <;>
          simp [PyMem_Free, PyMem_NEW, World.engineCall, World.record, countCalls,
            List.countP_append, Event.isAlloc, Event.isFree]
      · rcases h with h | ⟨e, he⟩
        · cases h
        · cases he

/-- C10 at concrete inputs: get_property(global, "boom"), whose lookup fails after
the buffer was allocated, and get_property() with an empty tuple. -/
theorem getProperty_name_buffer_witness :
    (PYM_getProperty exampleEnv exampleSelf argsBoom exampleWorld).2.buffers = 0 ∧
    countCalls Event.isFree
      (PYM_getProperty exampleEnv exampleSelf argsBoom exampleWorld).2.log = 1 ∧
    countCalls Event.isFree
      (PYM_getProperty exampleEnv exampleSelf [] exampleWorld).2.log = 0 :=
  ⟨(getProperty_name_buffer exampleEnv exampleSelf argsBoom exampleWorld).1,
   ((getProperty_name_buffer exampleEnv exampleSelf argsBoom exampleWorld).2.1
      ⟨rfl, _, rfl⟩).2,
   ((getProperty_name_buffer exampleEnv exampleSelf [] exampleWorld).2.2
      (Or.inr ⟨_, rfl⟩)).2⟩

/-- Errors of the converter "O!" are TypeErrors. -/
theorem convert_O_bang_error (a : PyVal) (e : PyErr) (h : convert_O_bang a = .error e) :
    e = .hostRaised .PyExc_TypeError := by
  cases a <;> simp [convert_O_bang] at h <;> exact h.symm

/-- The converter "O!" refuses exactly the objects that are not of its type. -/
theorem convert_O_bang_of_type (a : PyVal) (h : a.ob_type ≠ .PYM_JSObjectType) :
    convert_O_bang a = .error (.hostRaised .PyExc_TypeError) := by
  cases a <;> first | rfl | exact absurd rfl h

/-- What the code does when an engine call fails, whether or not an exception is
pending: the error is a PYM_error whose text is the literal of that call site;
the five texts are pairwise different; those for JS_NewObject,
JS_NewStringCopyZ and JS_InitStandardClasses contain the name of the call. -/
theorem engine_failure_messages (E : Env) (self : PYM_JSContextObject)
    (args : List PyVal) (w : World) :
    (∀ addr, E.PyObject_New = some addr → (E.JS_NewObject w.cx).result = none →
      (PYM_newObject E self args w).1 =
        .error (.PyErr_SetString .PYM_error (failureMessage .JS_NewObject))) ∧
    (∀ object string, E.JS_CStringsAreUTF8 = true →
      PyArg_ParseTuple_O_es E.units args = .ok (object, string) →
      (E.JS_NewStringCopyZ w.cx string).result = none →
      (PYM_getProperty E self args w).1 =
        .error (.PyErr_SetString .PYM_error (failureMessage .JS_NewStringCopyZ))) ∧
    (∀ object string jsString, E.JS_CStringsAreUTF8 = true →
      PyArg_ParseTuple_O_es E.units args = .ok (object, string) →
      (E.JS_NewStringCopyZ w.cx string).result = some jsString →
      (E.JS_GetUCProperty
        { w.cx with exception := (E.JS_NewStringCopyZ w.cx string).exception }
        object.obj jsString jsString.length).result = none →
      (PYM_getProperty E self args w).1 =
        .error (.PyErr_SetString .PYM_error (failureMessage .JS_GetUCProperty))) ∧
    (∀ object, PyArg_ParseTuple_O args = .ok object →
      (E.JS_InitStandardClasses w.cx object.obj).result = none →
      (PYM_initStandardClasses E self args w).1 =
        .error (.PyErr_SetString .PYM_error (failureMessage .JS_InitStandardClasses))) ∧
    (∀ object source sourceLen filename lineNo,
      PyArg_ParseTuple_O_shash_s_i E.units args =
        .ok (object, (source, sourceLen), filename, lineNo) →
      (E.JS_EvaluateScript (JS_BeginRequest w).cx object.obj source sourceLen
        filename lineNo).result = none →
      (PYM_evaluateScript E self args w).1 =
        .error (.PyErr_SetString .PYM_error (failureMessage .JS_EvaluateScript))) ∧
    (∀ c d : EngineCall, c ≠ d → failureMessage c ≠ failureMessage d) ∧
    mentions (failureMessage .JS_NewObject) .JS_NewObject = true ∧
    mentions (failureMessage .JS_NewStringCopyZ) .JS_NewStringCopyZ = true ∧
    mentions (failureMessage .JS_InitStandardClasses) .JS_InitStandardClasses = true := by
  have hcx : (Py_INCREF self.runtime w).cx = w.cx := rfl
  have hcx2 : (PyMem_NEW (w.record .JS_CStringsAreUTF8)).cx = w.cx := rfl
  refine ⟨?_, ?_, ?_, ?_, ?_, ?_, by decide, by decide, by decide⟩
  · intro addr haddr hnone
    simp only [PYM_newObject, haddr, hcx, hnone, failureMessage]
  · intro object string hu hp hnone
    simp [PYM_getProperty, hu, hp, hcx2, hnone, failureMessage]
  · intro object string jsString hu hp hsome hnone
    have hcx3 : ((PyMem_NEW (w.record .JS_CStringsAreUTF8)).engineCall
        (.JS_NewStringCopyZ string) (E.JS_NewStringCopyZ w.cx string).exception).cx =
        { w.cx with exception := (E.JS_NewStringCopyZ w.cx string).exception } := rfl
    simp [PYM_getProperty, hu, hp, hcx2, hsome, hcx3, hnone, failureMessage]
  · intro object hp hnone
    simp only [PYM_initStandardClasses, hp, hnone, failureMessage]
  · intro object source sourceLen filename lineNo hp hnone
    simp only [PYM_evaluateScript, hp, hnone, failureMessage]
  · intro c d hcd
    cases c <;> cases d <;> first | exact absurd rfl hcd | decide

/-- C9: the code at the failing inputs.  get_property(global, "Object") with an
engine whose JS_GetUCProperty fails without an exception, and
evaluate_script(global, "1+1", "f", 1) with an engine whose JS_EvaluateScript
fails without an exception: no exception is pending on return, the errors are
PYM_error with the texts "Getting property failed." and "Script failed", and
neither text contains the name of the engine call that failed. -/
theorem failure_messages_without_call_name :
    (PYM_getProperty lookupFailingEnv exampleSelf argsObject exampleWorld).2.cx.exception =
      none ∧
    (PYM_getProperty lookupFailingEnv exampleSelf argsObject exampleWorld).1 =
      .error (.PyErr_SetString .PYM_error "Getting property failed.") ∧
    mentions "Getting property failed." .JS_GetUCProperty = false ∧
    (PYM_evaluateScript failingEnv exampleSelf argsGoodScript exampleWorld).2.cx.exception =
      none ∧
    (PYM_evaluateScript failingEnv exampleSelf argsGoodScript exampleWorld).1 =
      .error (.PyErr_SetString .PYM_error "Script failed") ∧
    mentions "Script failed" .JS_EvaluateScript = false := by
  refine ⟨?_, ?_, ?_, ?_, ?_, ?_⟩ <;> rfl

/-- PYM_getProperty changes no reference count and destroys no engine context. -/
theorem getProperty_frame (E : Env) (self : PYM_JSContextObject) (args : List PyVal)
    (w : World) :
    (PYM_getProperty E self args w).2.ob_refcnt = w.ob_refcnt ∧
    destroyCount (PYM_getProperty E self args w).2.log = destroyCount w.log := by
  cases hu : E.JS_CStringsAreUTF8
  · rw [getProperty_of_no_utf8 E self args w hu]
    simp [World.record, destroyCount, List.countP_append]
  · rcases hp : PyArg_ParseTuple_O_es E.units args with e | ⟨object, string⟩
    · rw [getProperty_of_parse_error E self args w e hu hp]
      simp [World.record, destroyCount, List.countP_append]
    · rw [getProperty_world_of_parsed E self args w object string hu hp]
      split <;>
        simp [PyMem_Free, PyMem_NEW, World.engineCall, World.record, destroyCount,
          List.countP_append]

/-- PYM_initStandardClasses changes no reference count and destroys no engine
context. -/
theorem initStandardClasses_frame (E : Env) (self : PYM_JSContextObject)
    (args : List PyVal) (w : World) :
    (PYM_initStandardClasses E self args w).2.ob_refcnt = w.ob_refcnt ∧
    destroyCount (PYM_initStandardClasses E self args w).2.log = destroyCount w.log := by
  unfold PYM_initStandardClasses
  split
  · exact ⟨rfl, rfl⟩
  · simp only []
    split <;> simp [World.engineCall, World.record, destroyCount, List.countP_append]

/-- PYM_evaluateScript changes no reference count and destroys no engine context. -/
theorem evaluateScript_frame (E : Env) (self : PYM_JSContextObject) (args : List PyVal)
    (w : World) :
    (PYM_evaluateScript E self args w).2.ob_refcnt = w.ob_refcnt ∧
    destroyCount (PYM_evaluateScript E self args w).2.log = destroyCount w.log := by
  rcases h : PyArg_ParseTuple_O_shash_s_i E.units args with
    e | ⟨object, ⟨source, sourceLen⟩, filename, lineNo⟩
  · simp [PYM_evaluateScript, h]
  · rw [evaluateScript_world_of_parsed E self args w _ _ _ _ _ h]
    simp [JS_EndRequest, JS_BeginRequest, World.engineCall, World.record, destroyCount,
      List.countP_append]

/-- PYM_newObject destroys no engine context; when it returns a value, the value is
a handle on the Context's runtime and that runtime has one reference more;
when it returns an error, every reference count is as before. -/
theorem newObject_refcnt (E : Env) (self : PYM_JSContextObject) (args : List PyVal)
    (w : World) :
    destroyCount (PYM_newObject E self args w).2.log = destroyCount w.log ∧
    (∀ v, (PYM_newObject E self args w).1 = .ok v →
      (∃ o, v = .PYM_JSObject o ∧ o.runtime = self.runtime) ∧
      ∀ rt, (PYM_newObject E self args w).2.ob_refcnt rt =
        if rt = self.runtime then w.ob_refcnt rt + 1 else w.ob_refcnt rt) ∧
    (∀ e, (PYM_newObject E self args w).1 = .error e →
      ∀ rt, (PYM_newObject E self args w).2.ob_refcnt rt = w.ob_refcnt rt) := by
  unfold PYM_newObject
  split
  · refine ⟨rfl, fun v h => (by simp at h), fun e _ rt => rfl⟩
  · simp only []
    split
    · refine ⟨?_, fun v h => (by simp at h), fun e _ rt => ?_⟩
      · simp [PYM_JSObjectDealloc, Py_DECREF, JS_RemoveRootRT, World.engineCall,
          World.record, Py_INCREF, destroyCount, List.countP_append]
      · simp only [PYM_JSObjectDealloc, Py_DECREF, JS_RemoveRootRT, World.engineCall,
          World.record, Py_INCREF]
        split <;> simp
    · refine ⟨?_, fun v h => ?_, fun e h => (by simp at h)⟩
      · simp [JS_AddNamedRootRT, World.engineCall, World.record, Py_INCREF, destroyCount,
          List.countP_append]
      · simp only [Except.ok.injEq] at h
        subst h
        exact ⟨⟨_, rfl, rfl⟩, fun rt => rfl⟩

/-- Every host action keeps the runtime of the configuration. -/
theorem step_runtime (s : Bridge) (c : Cmd) : (step s c).runtime = s.runtime := by
  cases c <;> simp only [step]
  case new_object E args =>
    cases s.context with
    | none => rfl
    | some self =>
      simp only []
      split <;> rfl
  case release_handle i => split <;> rfl
  case release_runtime => split <;> rfl
  all_goals
    cases s.context <;> rfl

/-- A configuration with a live Context keeps the invariant when its world is
replaced by one with the same reference counts and as many destroyed engine
contexts. -/
theorem inv_of_frame (w w1 : World) (rt : Nat) (ctx : Option PYM_JSContextObject)
    (handles : List PYM_JSObject) (refs : Nat)
    (h : Bridge.inv ⟨w, rt, ctx, handles, refs⟩)
    (h1 : w1.ob_refcnt = w.ob_refcnt) (h2 : destroyCount w1.log = destroyCount w.log) :
    Bridge.inv ⟨w1, rt, ctx, handles, refs⟩ := by
  obtain ⟨hcnt, hh, hc, hd⟩ := h
  exact ⟨by simpa [h1] using hcnt, hh, hc, by simpa [h2] using hd⟩

/-- Every host action keeps the invariant. -/
theorem step_inv (s : Bridge) (c : Cmd) (h : s.inv) : (step s c).inv := by
  rcases s with ⟨w, rt, ctx, handles, refs⟩
  have hinv := h
  obtain ⟨hcnt, hh, hc, hd⟩ := h
  simp only at hcnt hh hc hd
  cases c with
  | new_object E args =>
    cases ctx with
    | none => exact hinv
    | some self =>
      obtain ⟨hd1, hok, herr⟩ := newObject_refcnt E self args w
      have hself : self.runtime = rt := hc self rfl
      simp only [step]
      rcases hr : PYM_newObject E self args w with ⟨res, w1⟩
      rw [hr] at hd1 hok herr
      simp only at hd1 hok herr
      cases res with
      | error e =>
        exact inv_of_frame w w1 rt _ handles refs hinv (funext (herr e rfl)) hd1
      | ok v =>
        obtain ⟨⟨o, rfl, ho⟩, h1⟩ := hok v rfl
        have h2 := h1 rt
        rw [hself] at h2 ho
        simp only [if_true] at h2
        refine ⟨?_, ?_, hc, ?_⟩
        · simp only [h2, hcnt, List.length_cons]
          omega
        · intro o1 ho1
          rcases List.mem_cons.1 ho1 with rfl | hm
          · exact ho
          · exact hh o1 hm
        · simpa [hd1] using hd
  | get_runtime args =>
    cases ctx with
    | none => exact hinv
    | some self =>
      have hself : self.runtime = rt := hc self rfl
      refine ⟨?_, hh, hc, ?_⟩
      · simp only [step, PYM_getRuntime, Py_INCREF, hself, if_true, hcnt]
        omega
      · simpa [step, PYM_getRuntime, Py_INCREF] using hd
  | init_standard_classes E args =>
    cases ctx with
    | none => exact hinv
    | some self =>
      exact inv_of_frame w _ rt _ handles refs hinv
        (initStandardClasses_frame E self args w).1
        (initStandardClasses_frame E self args w).2
  | evaluate_script E args =>
    cases ctx with
    | none => exact hinv
    | some self =>
      exact inv_of_frame w _ rt _ handles refs hinv
        (evaluateScript_frame E self args w).1 (evaluateScript_frame E self args w).2
  | get_property E args =>
    cases ctx with
    | none => exact hinv
    | some self =>
      exact inv_of_frame w _ rt _ handles refs hinv
        (getProperty_frame E self args w).1 (getProperty_frame E self args w).2
  | release_handle i =>
    simp only [step]
    cases hi : handles[i]? with
    | none => exact hinv
    | some o =>
      have ho := hh o (List.getElem?_mem hi)
      have hlt : i < handles.length := (List.getElem?_eq_some.1 hi).1
      refine ⟨?_, ?_, hc, ?_⟩
      · simp only [PYM_JSObjectDealloc, Py_DECREF, JS_RemoveRootRT, World.record, ho,
          if_true, hcnt, List.length_eraseIdx_of_lt hlt]
        omega
      · intro o1 ho1
        exact hh o1 (List.mem_of_mem_eraseIdx ho1)
      · simpa [PYM_JSObjectDealloc, Py_DECREF, JS_RemoveRootRT, World.record, destroyCount,
          List.countP_append] using hd
  | release_runtime =>
    simp only [step]
    split
    · exact hinv
    · next hne =>
      have hpos : refs ≠ 0 := hne
      refine ⟨?_, hh, hc, ?_⟩
      · simp only [Py_DECREF, if_true, hcnt]
        omega
      · simpa [Py_DECREF] using hd
  | destroy_context =>
    cases ctx with
    | none => exact hinv
    | some self =>
      have hself : self.runtime = rt := hc self rfl
      simp only [Option.isSome_some, if_true] at hcnt hd
      have hlog : destroyCount (PYM_JSContextDealloc self w).log ≤ destroyCount w.log + 1 := by
        simp only [PYM_JSContextDealloc, Py_DECREF]
        split <;> simp [World.record, destroyCount, List.countP_append]
      have href : (PYM_JSContextDealloc self w).ob_refcnt rt = w.ob_refcnt rt - 1 := by
        simp only [PYM_JSContextDealloc, Py_DECREF, hself, if_true]
        split <;> rfl
      refine ⟨?_, hh, ?_, ?_⟩
      · simp only [step, href, hcnt, Option.isSome_none]
        simp
        omega
      · intro c hcc
        cases hcc
      · simp only [step, Option.isSome_none]
        simp
        omega

/-- The initial configuration satisfies the invariant. -/
theorem init_inv (rt cx hostRefs : Nat) : (Bridge.init rt cx hostRefs).inv := by
  refine ⟨?_, ?_, ?_, ?_⟩
  · simp [Bridge.init]
  · intro o ho
    cases ho
  · intro c hc
    cases hc
    rfl
  · simp [Bridge.init, destroyCount]

/-- Every sequence of host actions keeps the invariant and the runtime. -/
theorem run_inv (cmds : List Cmd) (s : Bridge) (h : s.inv) :
    (run s cmds).inv ∧ (run s cmds).runtime = s.runtime := by
  induction cmds generalizing s with
  | nil => exact ⟨h, rfl⟩
  | cons c cs ih =>
    have := ih (step s c) (step_inv s c h)
    exact ⟨this.1, this.2.trans (step_runtime s c)⟩

/-- C7: reference counting of the runtime.  A new_object that returns a handle adds
exactly one reference to the Context's runtime, get_runtime adds exactly one,
and PYM_JSContextDealloc removes one and calls JS_DestroyContext at most once.
Starting from a freshly created Context (holding one reference, the host
holding `hostRefs` more) and after any sequence of host actions: the engine
context has been destroyed at most once; the reference count of the runtime
is one for the Context while it lives, plus the number of live handles, plus
the host's references; so whenever a handle made by new_object is alive the
count is positive, and destroying the Context then takes exactly one
reference away and leaves the count strictly positive. -/
theorem runtime_survives_context_destruction (rt cx hostRefs : Nat) (cmds : List Cmd) :
    (∀ (E : Env) (self : PYM_JSContextObject) (args : List PyVal) (w : World) (v : PyVal),
      (PYM_newObject E self args w).1 = .ok v →
      (PYM_newObject E self args w).2.ob_refcnt self.runtime =
        w.ob_refcnt self.runtime + 1) ∧
    (∀ (self : PYM_JSContextObject) (args : List PyVal) (w : World),
      (PYM_getRuntime self args w).2.ob_refcnt self.runtime =
        w.ob_refcnt self.runtime + 1) ∧
    (∀ (self : PYM_JSContextObject) (w : World),
      (PYM_JSContextDealloc self w).ob_refcnt self.runtime = w.ob_refcnt self.runtime - 1 ∧
      destroyCount (PYM_JSContextDealloc self w).log ≤ destroyCount w.log + 1) ∧
    destroyCount (run (Bridge.init rt cx hostRefs) cmds).w.log ≤ 1 ∧
    (run (Bridge.init rt cx hostRefs) cmds).w.ob_refcnt rt =
      (if (run (Bridge.init rt cx hostRefs) cmds).context.isSome then 1 else 0) +
        (run (Bridge.init rt cx hostRefs) cmds).handles.length +
        (run (Bridge.init rt cx hostRefs) cmds).runtimeRefs ∧
    ((run (Bridge.init rt cx hostRefs) cmds).handles ≠ [] →
      0 < (run (Bridge.init rt cx hostRefs) cmds).w.ob_refcnt rt) ∧
    (∀ self, (run (Bridge.init rt cx hostRefs) cmds).context = some self →
      (run (Bridge.init rt cx hostRefs) cmds).handles ≠ [] →
      (PYM_JSContextDealloc self (run (Bridge.init rt cx hostRefs) cmds).w).ob_refcnt rt + 1 =
        (run (Bridge.init rt cx hostRefs) cmds).w.ob_refcnt rt ∧
      0 < (PYM_JSContextDealloc self (run (Bridge.init rt cx hostRefs) cmds).w).ob_refcnt rt ∧
      0 < (step (run (Bridge.init rt cx hostRefs) cmds) .destroy_context).w.ob_refcnt rt) := by
  obtain ⟨⟨hcnt, hh, hc, hd⟩, hrt⟩ := run_inv cmds (Bridge.init rt cx hostRefs)
    (init_inv rt cx hostRefs)
  have hrt2 : (run (Bridge.init rt cx hostRefs) cmds).runtime = rt := hrt
  rw [hrt2] at hcnt hc
  have hdealloc : ∀ (self : PYM_JSContextObject) (w : World),
      (PYM_JSContextDealloc self w).ob_refcnt self.runtime = w.ob_refcnt self.runtime - 1 ∧
      destroyCount (PYM_JSContextDealloc self w).log ≤ destroyCount w.log + 1 := by
    intro self w
    simp only [PYM_JSContextDealloc, Py_DECREF, if_true]
    split <;> simp [World.record, destroyCount, List.countP_append]
  have hlen : ∀ l : List PYM_JSObject, l ≠ [] → 0 < l.length :=
    fun l hl => List.length_pos.2 hl
  refine ⟨?_, ?_, hdealloc, ?_, hcnt, ?_, ?_⟩
  · intro E self args w v hv
    have h := ((newObject_refcnt E self args w).2.1 v hv).2 self.runtime
    simpa using h
  · intro self args w
    simp [PYM_getRuntime, Py_INCREF]
  · omega
  · intro hne
    have := hlen _ hne
    omega
  · intro self hself hne
    have hpos := hlen _ hne
    have hr := hc self hself
    have h1 := (hdealloc self (run (Bridge.init rt cx hostRefs) cmds).w).1
    rw [hr] at h1
    have hstep : (step (run (Bridge.init rt cx hostRefs) cmds) .destroy_context).w =
        PYM_JSContextDealloc self (run (Bridge.init rt cx hostRefs) cmds).w := by
      simp only [step, hself]
    rw [hstep, h1]
    simp only [hself, Option.isSome_some, if_true] at hcnt
    omega

/-- C7 at a concrete run: a Context on runtime 0 with one reference held by the
host; the host makes one object and then destroys the Context. -/
theorem runtime_survives_context_destruction_witness :
    (run (Bridge.init 0 1 1) [.new_object exampleEnv []]).handles ≠ [] ∧
    0 < (step (run (Bridge.init 0 1 1) [.new_object exampleEnv []])
      .destroy_context).w.ob_refcnt 0 :=
  ⟨by decide,
   ((runtime_survives_context_destruction 0 1 1 [.new_object exampleEnv []]).2.2.2.2.2.2
      { cx := some 1, runtime := 0 } rfl (by decide)).2.2⟩

end Pydermonkey
